import Mathlib

/-!
Shallow embedding of the WeCare beauty-store backend
(`app.py`, `backend_engine/read_ops.py`, `backend_engine/customer_ops.py`,
`backend_engine/admin_ops.py`, `backend_engine/write_ops.py`).

Modelling conventions:
* the JSON product map (a Python dict keyed by stringified ids) is an
  association list `List (Nat × Product)` looked up by the first matching key;
* money amounts (`cost`, `price`, balances) are rationals (`Rat`), Python floats
  used here only for exact decimal arithmetic;
* stock counts and deltas are integers (`Int`), quantities from forms are `Nat`
  (the handlers only accept digit strings with value > 0);
* file I/O success/failure is made explicit: `update_product_stock` takes
  `loadOk`/`saveOk` flags, and the purchase flow takes an `invoiceOk` flag for
  the result of `save_purchase_invoice`; timestamps are opaque `Nat` tokens;
* error strings of the source are abstracted into inductive error tags.
-/

/-- Product record as stored in `products.json` (fields used by the purchase
and restock flows; `created_date`, `category`, `country`, `description` are
carried nowhere relevant and omitted). -/
structure Product where
  id : Nat
  name : String
  brand : String
  stock : Int
  cost : Rat
  price : Rat
  is_active : Bool
deriving DecidableEq, Repr

/-- The in-memory `products` dict of `read_ops.py`: stringified id ↦ record. -/
abbrev Catalog := List (Nat × Product)

/-- Dict lookup `products.get(str(product_id))`: first entry with the key. -/
def lookupProduct : Catalog → Nat → Option Product
  | [], _ => none
  | (k, p) :: rest, pid => if k = pid then some p else lookupProduct rest pid

/-- Assignment `products[str(product_id)]["stock"] = v` on the first entry with
the key; anything else is untouched. -/
def setStock : Catalog → Nat → Int → Catalog
  | [], _, _ => []
  | (k, p) :: rest, pid, v =>
    if k = pid then (k, { p with stock := v }) :: rest
    else (k, p) :: setStock rest pid v

/-- Decidable equality for `Except`, used to evaluate concrete runs of the
checking loops. -/
instance {e a : Type} [DecidableEq e] [DecidableEq a] : DecidableEq (Except e a) :=
  fun x y =>
    match x, y with
    | .ok u, .ok v =>
      if h : u = v then isTrue (by rw [h]) else isFalse (fun hh => h (by injection hh))
    | .error u, .error v =>
      if h : u = v then isTrue (by rw [h]) else isFalse (fun hh => h (by injection hh))
    | .ok _, .error _ => isFalse (fun hh => Except.noConfusion hh)
    | .error _, .ok _ => isFalse (fun hh => Except.noConfusion hh)

/-- Error cases of `update_product_stock` in `read_ops.py` (the source reports
them as strings; the `insufficientStock` message carries the available stock). -/
inductive StockErr where
  | loadFailed
  | productNotFound
  | insufficientStock (available : Int)
  | saveFailed
deriving DecidableEq, Repr

/-- Result dict of `update_product_stock`: either
`{success: True, old_stock, new_stock}` or `{success: False, error}`. -/
inductive StockResult where
  | ok (old_stock new_stock : Int)
  | err (e : StockErr)
deriving DecidableEq, Repr

/-- Translation of `read_ops.update_product_stock(product_id, quantity_change)`.
`loadOk` is the result of the forced `load_products`, `saveOk` the result of
`save_products`.  On a save failure the source first writes the new stock into
the in-memory dict and then reverts it to `old_stock`, so the net catalog is
unchanged; the model returns the original catalog directly. -/
def update_product_stock (c : Catalog) (pid : Nat) (quantity_change : Int)
    (loadOk saveOk : Bool) : StockResult × Catalog :=
  if !loadOk then (.err .loadFailed, c)
  else
    match lookupProduct c pid with
    | none => (.err .productNotFound, c)
    | some p =>
      let old_stock := p.stock
      let new_stock := old_stock + quantity_change
      if new_stock < 0 then (.err (.insufficientStock old_stock), c)
      else if saveOk then (.ok old_stock new_stock, setStock c pid new_stock)
      else (.err .saveFailed, c)

/-- Invariant from the spec: every stock value in the catalog is nonnegative. -/
def stocksNonneg (c : Catalog) : Prop := ∀ e ∈ c, 0 ≤ e.2.stock

instance (c : Catalog) : Decidable (stocksNonneg c) := by
  unfold stocksNonneg; infer_instance

theorem lookupProduct_setStock_self (c : Catalog) (pid : Nat) (v : Int) :
    lookupProduct (setStock c pid v) pid =
      (lookupProduct c pid).map fun p => { p with stock := v } := by
  induction c with
  | nil => rfl
  | cons e rest ih =>
    obtain ⟨k, p⟩ := e
    by_cases hk : k = pid
    · simp [setStock, lookupProduct, hk]
    · simp [setStock, lookupProduct, hk, ih]

theorem lookupProduct_setStock_other (c : Catalog) (pid k : Nat) (v : Int)
    (hne : k ≠ pid) : lookupProduct (setStock c pid v) k = lookupProduct c k := by
  induction c with
  | nil => rfl
  | cons e rest ih =>
    obtain ⟨k', p⟩ := e
    by_cases hk : k' = pid
    · subst hk
      simp [setStock, lookupProduct, Ne.symm hne]
    · by_cases hk2 : k' = k
      · subst hk2
        simp [setStock, lookupProduct, hk]
      · simp [setStock, lookupProduct, hk, hk2, ih]

theorem lookupProduct_setStock_none (c : Catalog) (pid k : Nat) (v : Int)
    (h : lookupProduct c k = none) :
    lookupProduct (setStock c pid v) k = none := by
  by_cases hk : k = pid
  · subst hk; simp [lookupProduct_setStock_self, h]
  · rw [lookupProduct_setStock_other c pid k v hk]; exact h

theorem stocksNonneg_setStock {c : Catalog} (h : stocksNonneg c)
    (pid : Nat) {v : Int} (hv : 0 ≤ v) : stocksNonneg (setStock c pid v) := by
  induction c with
  | nil => exact h
  | cons e rest ih =>
    obtain ⟨k, p⟩ := e
    have hp : 0 ≤ p.stock := h (k, p) (List.mem_cons_self _ _)
    have hrest : stocksNonneg rest := fun x hx => h x (List.mem_cons_of_mem _ hx)
    by_cases hk : k = pid
    · simp only [setStock, if_pos hk]
      intro x hx
      rcases List.mem_cons.mp hx with rfl | hx
      · exact hv
      · exact hrest x hx
    · simp only [setStock, if_neg hk]
      intro x hx
      rcases List.mem_cons.mp hx with rfl | hx
      · exact hp
      · exact ih hrest x hx

/-- A stock mutation through `update_product_stock` keeps all stocks
nonnegative, whether it succeeds or fails. -/
theorem stocksNonneg_update_product_stock {c : Catalog} (h : stocksNonneg c)
    (pid : Nat) (qc : Int) (loadOk saveOk : Bool) :
    stocksNonneg (update_product_stock c pid qc loadOk saveOk).2 := by
  unfold update_product_stock
  cases loadOk with
  | false => exact h
  | true =>
    simp only [Bool.not_true, Bool.false_eq_true, if_false]
    cases hl : lookupProduct c pid with
    | none => exact h
    | some p =>
      simp only []
      by_cases hneg : p.stock + qc < 0
      · simp only [if_pos hneg]; exact h
      · simp only [if_neg hneg]
        cases saveOk with
        | false => simpa using h
        | true =>
          simp only [if_pos rfl]
          exact stocksNonneg_setStock h pid (by omega)

theorem update_product_stock_lookup_none {c : Catalog} {pid k : Nat}
    (h : lookupProduct c k = none) (qc : Int) (loadOk saveOk : Bool) :
    lookupProduct (update_product_stock c pid qc loadOk saveOk).2 k = none := by
  unfold update_product_stock
  cases loadOk with
  | false => exact h
  | true =>
    simp only [Bool.not_true, Bool.false_eq_true, if_false]
    cases hl : lookupProduct c pid with
    | none => exact h
    | some p =>
      simp only []
      by_cases hneg : p.stock + qc < 0
      · simp only [if_pos hneg]; exact h
      · simp only [if_neg hneg]
        cases saveOk with
        | false => simpa using h
        | true =>
          simp only [if_pos rfl]
          exact lookupProduct_setStock_none c pid k _ h

/-- Ledger entry appended by `customer_ops.log_customer_transaction`
(`id` is sequential per customer; `timestamp`/`date` omitted). -/
structure LedgerEntry where
  id : Nat
  ttype : String
  amount : Rat
  description : String
  balance_after : Rat
deriving DecidableEq, Repr

/-- Translation of `customer_ops.log_customer_transaction` for one customer:
appends one record with `id = len(existing) + 1`. -/
def log_customer_transaction (ledger : List LedgerEntry) (ttype : String)
    (amount : Rat) (description : String) (balance_after : Rat) :
    List LedgerEntry :=
  ledger ++ [{ id := ledger.length + 1, ttype := ttype, amount := amount,
               description := description, balance_after := balance_after }]

/-- Translation of `customer_ops.update_wallet_balance(customer_id, amount)`
for one customer: `wallet` is the customer's wallet balance if a wallet
exists.  Returns the value the source returns (`new_balance`, or `None` when
the wallet is missing) together with the customer's ledger after the call. -/
def update_wallet_balance (wallet : Option Rat) (ledger : List LedgerEntry)
    (amount : Rat) : Option Rat × List LedgerEntry :=
  match wallet with
  | none => (none, ledger)
  | some bal =>
    let new_balance := bal + amount
    let ttype := if amount > 0 then "add" else "withdraw"
    let description :=
      if amount > 0 then "Money added to wallet" else "Money withdrawn from wallet"
    (some new_balance,
     log_customer_transaction ledger ttype |amount| description new_balance)

/-- Singleton admin wallet document `admin_wallet.json`
(`last_updated` is an opaque timestamp token). -/
structure AdminWallet where
  balance : Rat
  total_revenue : Rat
  total_transactions : Nat
  last_updated : Nat
deriving DecidableEq, Repr

/-- Translation of `admin_ops.update_admin_wallet(amount, transaction_type)`;
`now` is the timestamp written into `last_updated`. -/
def update_admin_wallet (w : AdminWallet) (amount : Rat)
    (transaction_type : String) (now : Nat) : AdminWallet :=
  let w1 :=
    if transaction_type = "revenue" then
      { w with balance := w.balance + amount,
               total_revenue := w.total_revenue + amount }
    else if transaction_type = "expense" then
      { w with balance := w.balance - amount }
    else w
  { w1 with total_transactions := w1.total_transactions + 1, last_updated := now }

/-- Translation of `admin_ops.add_revenue_to_admin`. -/
def add_revenue_to_admin (w : AdminWallet) (amount : Rat) (now : Nat) : AdminWallet :=
  update_admin_wallet w amount "revenue" now

/-- Translation of `admin_ops.deduct_admin_balance`. -/
def deduct_admin_balance (w : AdminWallet) (amount : Rat) (now : Nat) : AdminWallet :=
  update_admin_wallet w amount "expense" now

/-- Record appended to `sales.json` by `admin_ops.log_sale`
(`timestamp` omitted). -/
structure SaleRecord where
  sale_id : Nat
  customer_id : Nat
  product_id : Nat
  product_name : String
  quantity : Nat
  unit_price : Rat
  total_price : Rat
deriving DecidableEq, Repr

/-- Record appended to `transactions.json` by `admin_ops.log_transaction`
(`timestamp` omitted). -/
structure FinTx where
  id : Nat
  customer_id : Nat
  amount : Rat
  ttype : String
  description : String
deriving DecidableEq, Repr

/-- Loyalty tiers returned as strings by `customer_ops.get_loyalty_tier`. -/
inductive LoyaltyTier where
  | noTier
  | bronze
  | silver
  | gold
  | diamond
deriving DecidableEq, Repr

/-- Translation of `customer_ops.get_loyalty_tier(points)` (the source returns
the strings "none" / "bronze" / "silver" / "gold" / "diamond"). -/
def get_loyalty_tier (points : Int) : LoyaltyTier :=
  if points ≥ 2000 then .diamond
  else if points ≥ 1000 then .gold
  else if points ≥ 500 then .silver
  else if points ≥ 100 then .bronze
  else .noTier

/-- Rank of a tier in the natural order none < bronze < silver < gold < diamond. -/
def tierRank : LoyaltyTier → Nat
  | .noTier => 0
  | .bronze => 1
  | .silver => 2
  | .gold => 3
  | .diamond => 4

/-- Combined store state touched by the purchase and restock handlers of
`app.py`, for one logged-in customer: the product catalog, the customer's
wallet balance (`None` when no wallet was set up), the customer's transaction
ledger, the global sales log, the global financial-transaction log, and the
admin wallet. -/
structure StoreState where
  catalog : Catalog
  wallet : Option Rat
  ledger : List LedgerEntry
  sales : List SaleRecord
  finTxs : List FinTx
  adminWallet : AdminWallet
deriving DecidableEq, Repr

/-- Outcomes of the POST branch of `app.py:purchase` after verification. -/
inductive PurchaseOutcome where
  | completed
  | insufficientStock (pid : Nat)
  | insufficientFunds
  | stockUpdateError (pid : Nat)
  | unhandledKeyError (pid : Nat)
  | invoiceError
deriving DecidableEq, Repr

/-- The first loop of the purchase handler (`app.py` lines 153-171): walks the
purchased items in order; a line whose product id is not in the catalog is
skipped; a line whose `qty + qty // 3` exceeds the product's stock aborts with
that product id; otherwise the line contributes `cost * 2 * qty` to the total. -/
def purchase_check (c : Catalog) : List (Nat × Nat) → Except Nat Rat
  | [] => .ok 0
  | (pid, qty) :: rest =>
    match lookupProduct c pid with
    | none => purchase_check c rest
    | some p =>
      let free := qty / 3
      let required := qty + free
      if (required : Int) > p.stock then .error pid
      else
        match purchase_check c rest with
        | .error e => .error e
        | .ok t => .ok (p.cost * 2 * (qty : Rat) + t)

/-- Result of the stock-deduction loop of the purchase handler. -/
inductive DeductResult where
  | ok
  | keyError (pid : Nat)
  | updateError (pid : Nat)
deriving DecidableEq, Repr

/-- The second loop of the purchase handler (`app.py` lines 182-204): for each
line, `products[str(product_id)]` is read unguarded (a missing id raises
`KeyError`, caught only by the handler's outer `except`), then
`update_product_stock(product_id, -(qty + qty // 3))` is applied; a failed
update aborts, leaving earlier deductions in place. -/
def purchase_deduct (c : Catalog) : List (Nat × Nat) → DeductResult × Catalog
  | [] => (.ok, c)
  | (pid, qty) :: rest =>
    match lookupProduct c pid with
    | none => (.keyError pid, c)
    | some _ =>
      let free := qty / 3
      let required := qty + free
      match update_product_stock c pid (-(required : Int)) true true with
      | (.ok _ _, c1) => purchase_deduct c1 rest
      | (.err _, c1) => (.updateError pid, c1)

/-- The sales-logging loop of the purchase handler (`app.py` lines 231-243):
one `log_sale` per purchased line whose product id is (still) in the catalog,
with `unit_price = cost * 2` and `total_price = cost * 2 * qty`. -/
def purchase_log_sales (sales : List SaleRecord) (c : Catalog) (cid : Nat) :
    List (Nat × Nat) → List SaleRecord
  | [] => sales
  | (pid, qty) :: rest =>
    match lookupProduct c pid with
    | none => purchase_log_sales sales c cid rest
    | some p =>
      purchase_log_sales
        (sales ++ [{ sale_id := sales.length + 1, customer_id := cid,
                     product_id := pid, product_name := p.name, quantity := qty,
                     unit_price := p.cost * 2, total_price := p.cost * 2 * (qty : Rat) }])
        c cid rest

/-- Translation of the POST branch of `app.py:purchase` after identity and
card verification have succeeded, for customer `cid` holding the wallet of
`s`.  `items` is the collected `purchased_items` list, `invoiceOk` the result
of `save_purchase_invoice` (`None` means failure), `now` the timestamp used by
the admin-wallet update. -/
def purchase (s : StoreState) (cid : Nat) (items : List (Nat × Nat))
    (invoiceOk : Bool) (now : Nat) : PurchaseOutcome × StoreState :=
  match purchase_check s.catalog items with
  | .error pid => (.insufficientStock pid, s)
  | .ok total =>
    if total > (s.wallet.getD 0) then (.insufficientFunds, s)
    else
      match purchase_deduct s.catalog items with
      | (.keyError pid, c1) => (.unhandledKeyError pid, { s with catalog := c1 })
      | (.updateError pid, c1) => (.stockUpdateError pid, { s with catalog := c1 })
      | (.ok, c1) =>
        if invoiceOk then
          match update_wallet_balance s.wallet s.ledger (-total) with
          | (newBal, ledger1) =>
            let ledger2 := log_customer_transaction ledger1 "purchase" total
              "Purchase items" (newBal.getD 0)
            let sales1 := purchase_log_sales s.sales c1 cid items
            let finTxs1 := s.finTxs ++
              [{ id := s.finTxs.length + 1, customer_id := cid, amount := total,
                 ttype := "revenue", description := "Purchase items" }]
            let aw1 := add_revenue_to_admin s.adminWallet total now
            (.completed,
             { catalog := c1, wallet := newBal, ledger := ledger2,
               sales := sales1, finTxs := finTxs1, adminWallet := aw1 })
        else (.invoiceError, { s with catalog := c1 })

/-- Outcomes of the POST branch of `app.py:admin_restock`. -/
inductive RestockOutcome where
  | completed
  | productNotFound (pid : Nat)
  | insufficientBalance
  | stockUpdateError (pid : Nat)
deriving DecidableEq, Repr

/-- The cost loop of the restock handler (`app.py` lines 381-394): each line
costs `quantity * product.cost`; a line whose product id is missing aborts the
whole batch before any mutation. -/
def restock_cost (c : Catalog) : List (Nat × Nat) → Except Nat Rat
  | [] => .ok 0
  | (pid, qty) :: rest =>
    match lookupProduct c pid with
    | none => .error pid
    | some p =>
      match restock_cost c rest with
      | .error e => .error e
      | .ok t => .ok ((qty : Rat) * p.cost + t)

/-- The stock-increase loop of the restock handler (`app.py` lines 406-420):
applies `update_product_stock(product_id, amount)` per line; a failure aborts,
leaving earlier increases in place. -/
def restock_apply (c : Catalog) : List (Nat × Nat) → Option Nat × Catalog
  | [] => (none, c)
  | (pid, qty) :: rest =>
    match update_product_stock c pid (qty : Int) true true with
    | (.ok _ _, c1) => restock_apply c1 rest
    | (.err _, c1) => (some pid, c1)

/-- Translation of the POST branch of `app.py:admin_restock` for a collected
`restock_items` list: price the batch, reject it if any product is unknown or
the total cost exceeds the admin wallet balance, otherwise increase stock per
line and debit the admin wallet once via `deduct_admin_balance`. -/
def admin_restock (s : StoreState) (items : List (Nat × Nat)) (now : Nat) :
    RestockOutcome × StoreState :=
  match restock_cost s.catalog items with
  | .error pid => (.productNotFound pid, s)
  | .ok total_cost =>
    if total_cost > s.adminWallet.balance then (.insufficientBalance, s)
    else
      match restock_apply s.catalog items with
      | (some pid, c1) => (.stockUpdateError pid, { s with catalog := c1 })
      | (none, c1) =>
        (.completed,
         { s with catalog := c1,
                  adminWallet := deduct_admin_balance s.adminWallet total_cost now })

/-- One store operation for the purchase/restock invariant: a purchase request
or a restock request with arbitrary arguments. -/
inductive StoreOp where
  | purchaseOp (cid : Nat) (items : List (Nat × Nat)) (invoiceOk : Bool) (now : Nat)
  | restockOp (items : List (Nat × Nat)) (now : Nat)

/-- Applies one store operation to the state, keeping whatever state the
handler leaves behind (also on rejection or mid-flow failure). -/
def applyOp (s : StoreState) : StoreOp → StoreState
  | .purchaseOp cid items invoiceOk now => (purchase s cid items invoiceOk now).2
  | .restockOp items now => (admin_restock s items now).2

theorem stocksNonneg_purchase_deduct (items : List (Nat × Nat)) :
    ∀ {c : Catalog}, stocksNonneg c → stocksNonneg (purchase_deduct c items).2 := by
  induction items with
  | nil => intro c h; exact h
  | cons hd tl ih =>
    intro c h
    obtain ⟨pid, qty⟩ := hd
    unfold purchase_deduct
    cases hl : lookupProduct c pid with
    | none => exact h
    | some p =>
      simp only []
      rcases hu : update_product_stock c pid (-((qty + qty / 3 : Nat) : Int)) true true
        with ⟨res, c1⟩
      have hc1 : stocksNonneg c1 := by
        have h2 := stocksNonneg_update_product_stock h pid
          (-((qty + qty / 3 : Nat) : Int)) true true
        rwa [hu] at h2
      cases res with
      | ok o n => exact ih hc1
      | err e => exact hc1

theorem stocksNonneg_restock_apply (items : List (Nat × Nat)) :
    ∀ {c : Catalog}, stocksNonneg c → stocksNonneg (restock_apply c items).2 := by
  induction items with
  | nil => intro c h; exact h
  | cons hd tl ih =>
    intro c h
    obtain ⟨pid, qty⟩ := hd
    unfold restock_apply
    rcases hu : update_product_stock c pid (qty : Int) true true with ⟨res, c1⟩
    have hc1 : stocksNonneg c1 := by
      have h2 := stocksNonneg_update_product_stock h pid (qty : Int) true true
      rwa [hu] at h2
    cases res with
    | ok o n => exact ih hc1
    | err e => exact hc1

theorem purchase_catalog_cases (s : StoreState) (cid : Nat)
    (items : List (Nat × Nat)) (invoiceOk : Bool) (now : Nat) :
    (purchase s cid items invoiceOk now).2.catalog = s.catalog ∨
    (purchase s cid items invoiceOk now).2.catalog = (purchase_deduct s.catalog items).2 := by
  unfold purchase
  cases hc : purchase_check s.catalog items with
  | error pid => left; rfl
  | ok total =>
    simp only []
    by_cases hb : total > s.wallet.getD 0
    · rw [if_pos hb]; left; rfl
    · rw [if_neg hb]
      rcases hd : purchase_deduct s.catalog items with ⟨res, c1⟩
      cases res with
      | ok =>
        cases invoiceOk with
        | true => right; rfl
        | false => right; rfl
      | keyError pid => right; rfl
      | updateError pid => right; rfl

theorem restock_catalog_cases (s : StoreState) (items : List (Nat × Nat)) (now : Nat) :
    (admin_restock s items now).2.catalog = s.catalog ∨
    (admin_restock s items now).2.catalog = (restock_apply s.catalog items).2 := by
  unfold admin_restock
  cases hc : restock_cost s.catalog items with
  | error pid => left; rfl
  | ok total =>
    simp only []
    by_cases hb : total > s.adminWallet.balance
    · rw [if_pos hb]; left; rfl
    · rw [if_neg hb]
      rcases hd : restock_apply s.catalog items with ⟨res, c1⟩
      cases res with
      | none => right; rfl
      | some pid => right; rfl

theorem stocksNonneg_applyOp {s : StoreState} (h : stocksNonneg s.catalog)
    (op : StoreOp) : stocksNonneg ((applyOp s op).catalog) := by
  cases op with
  | purchaseOp cid items invoiceOk now =>
    rcases purchase_catalog_cases s cid items invoiceOk now with hcat | hcat <;>
      unfold applyOp <;> rw [hcat]
    · exact h
    · exact stocksNonneg_purchase_deduct items h
  | restockOp items now =>
    rcases restock_catalog_cases s items now with hcat | hcat <;>
      unfold applyOp <;> rw [hcat]
    · exact h
    · exact stocksNonneg_restock_apply items h

/-- Promotion quantity from the spec: purchasing `qty` grants `free = qty // 3`
bonus units ("buy 3 get 1 free"). -/
def specFree (qty : Nat) : Nat := qty / 3

/-- Stock requirement from the spec: `required = qty + free` units must be
available. -/
def specRequired (qty : Nat) : Nat := qty + specFree qty

/-- Line price from the spec: `line_price = unit_cost × 2 × qty` (free units
are not charged). -/
def specLinePrice (cost : Rat) (qty : Nat) : Rat := cost * 2 * (qty : Rat)

/-- Purchase total from the spec: the sum of the line prices of the catalog
lines (a line whose product is not in the catalog prices at 0). -/
def specPurchaseTotal (c : Catalog) : List (Nat × Nat) → Rat
  | [] => 0
  | (pid, qty) :: rest =>
    (match lookupProduct c pid with
     | some p => specLinePrice p.cost qty
     | none => 0) + specPurchaseTotal c rest

/-- Restock batch cost from the spec: the sum over the lines of
`quantity × product.cost` (an unknown product contributes 0; the code rejects
such a batch before costing it). -/
def specRestockTotal (c : Catalog) : List (Nat × Nat) → Rat
  | [] => 0
  | (pid, qty) :: rest =>
    (match lookupProduct c pid with
     | some p => (qty : Rat) * p.cost
     | none => 0) + specRestockTotal c rest

theorem purchase_check_total {c : Catalog} :
    ∀ {items : List (Nat × Nat)} {t : Rat},
      purchase_check c items = .ok t → t = specPurchaseTotal c items := by
  intro items
  induction items with
  | nil =>
    intro t h
    simp only [purchase_check, Except.ok.injEq] at h
    simp [specPurchaseTotal, ← h]
  | cons hd tl ih =>
    obtain ⟨pid, qty⟩ := hd
    intro t h
    unfold purchase_check at h
    cases hl : lookupProduct c pid with
    | none =>
      rw [hl] at h
      simp only [specPurchaseTotal, hl, ih h]
      ring
    | some p =>
      rw [hl] at h
      simp only [] at h
      by_cases hgt : ((qty + qty / 3 : Nat) : Int) > p.stock
      · rw [if_pos hgt] at h; exact absurd h (by simp)
      · rw [if_neg hgt] at h
        cases htl : purchase_check c tl with
        | error e => rw [htl] at h; exact absurd h (by simp)
        | ok t1 =>
          rw [htl] at h
          simp only [Except.ok.injEq] at h
          simp only [specPurchaseTotal, hl, specLinePrice, ← h, ih htl]

theorem purchase_check_avail {c : Catalog} :
    ∀ {items : List (Nat × Nat)} {t : Rat},
      purchase_check c items = .ok t →
      ∀ pid qty, (pid, qty) ∈ items → ∀ p, lookupProduct c pid = some p →
        ((specRequired qty : Nat) : Int) ≤ p.stock := by
  intro items
  induction items with
  | nil => intro t _ pid qty hmem; exact absurd hmem (List.not_mem_nil _)
  | cons hd tl ih =>
    obtain ⟨pid0, qty0⟩ := hd
    intro t h pid qty hmem p hp
    unfold purchase_check at h
    cases hl : lookupProduct c pid0 with
    | none =>
      rw [hl] at h
      rcases List.mem_cons.mp hmem with heq | hmem2
      · injection heq with h1 h2
        subst h1; subst h2
        rw [hp] at hl; exact absurd hl (by simp)
      · exact ih h pid qty hmem2 p hp
    | some p0 =>
      rw [hl] at h
      simp only [] at h
      by_cases hgt : ((qty0 + qty0 / 3 : Nat) : Int) > p0.stock
      · rw [if_pos hgt] at h; exact absurd h (by simp)
      · rw [if_neg hgt] at h
        cases htl : purchase_check c tl with
        | error e => rw [htl] at h; exact absurd h (by simp)
        | ok t1 =>
          rcases List.mem_cons.mp hmem with heq | hmem2
          · injection heq with h1 h2
            subst h1; subst h2
            rw [hp] at hl
            injection hl with hl
            subst hl
            simpa [specRequired, specFree] using hgt
          · exact ih htl pid qty hmem2 p hp

theorem purchase_check_insufficient {c : Catalog} :
    ∀ {items : List (Nat × Nat)} {pid qty : Nat} {p : Product},
      (pid, qty) ∈ items → lookupProduct c pid = some p →
      p.stock < ((specRequired qty : Nat) : Int) →
      ∃ e, purchase_check c items = .error e := by
  intro items
  induction items with
  | nil => intro pid qty p hmem; exact absurd hmem (List.not_mem_nil _)
  | cons hd tl ih =>
    obtain ⟨pid0, qty0⟩ := hd
    intro pid qty p hmem hp hins
    unfold purchase_check
    cases hl : lookupProduct c pid0 with
    | none =>
      rcases List.mem_cons.mp hmem with heq | hmem2
      · injection heq with h1 h2
        subst h1; subst h2
        rw [hp] at hl; exact absurd hl (by simp)
      · exact ih hmem2 hp hins
    | some p0 =>
      simp only []
      by_cases hgt : ((qty0 + qty0 / 3 : Nat) : Int) > p0.stock
      · exact ⟨pid0, by rw [if_pos hgt]⟩
      · rw [if_neg hgt]
        rcases List.mem_cons.mp hmem with heq | hmem2
        · injection heq with h1 h2
          subst h1; subst h2
          rw [hp] at hl
          injection hl with hl
          subst hl
          exact absurd hins (by simpa [specRequired, specFree] using hgt)
        · obtain ⟨e, he⟩ := ih hmem2 hp hins
          exact ⟨e, by rw [he]⟩

theorem restock_cost_total {c : Catalog} :
    ∀ {items : List (Nat × Nat)} {t : Rat},
      restock_cost c items = .ok t → t = specRestockTotal c items := by
  intro items
  induction items with
  | nil =>
    intro t h
    simp only [restock_cost, Except.ok.injEq] at h
    simp [specRestockTotal, ← h]
  | cons hd tl ih =>
    obtain ⟨pid, qty⟩ := hd
    intro t h
    unfold restock_cost at h
    cases hl : lookupProduct c pid with
    | none => rw [hl] at h; exact absurd h (by simp)
    | some p =>
      rw [hl] at h
      cases htl : restock_cost c tl with
      | error e => rw [htl] at h; exact absurd h (by simp)
      | ok t1 =>
        rw [htl] at h
        simp only [Except.ok.injEq] at h
        simp only [specRestockTotal, hl, ← h, ih htl]

theorem purchase_check_skip {c : Catalog} {bad : Nat}
    (hb : lookupProduct c bad = none) (q : Nat) :
    ∀ (pre rest : List (Nat × Nat)),
      purchase_check c (pre ++ (bad, q) :: rest) = purchase_check c (pre ++ rest) := by
  intro pre
  induction pre with
  | nil =>
    intro rest
    simp only [List.nil_append, purchase_check, hb]
  | cons hd tl ih =>
    intro rest
    obtain ⟨pid, qty⟩ := hd
    simp only [List.cons_append, purchase_check]
    cases hl : lookupProduct c pid with
    | none => simp only [hl]; exact ih rest
    | some p =>
      simp only [hl, List.append_eq]
      rw [ih rest]

theorem purchase_deduct_append :
    ∀ (pre : List (Nat × Nat)) {c c1 : Catalog},
      purchase_deduct c pre = (.ok, c1) →
      ∀ (rest : List (Nat × Nat)),
        purchase_deduct c (pre ++ rest) = purchase_deduct c1 rest := by
  intro pre
  induction pre with
  | nil =>
    intro c c1 h rest
    simp only [purchase_deduct, Prod.mk.injEq] at h
    rw [List.nil_append, h.2]
  | cons hd tl ih =>
    intro c c1 h rest
    obtain ⟨pid, qty⟩ := hd
    simp only [List.cons_append]
    simp only [purchase_deduct] at h ⊢
    cases hl : lookupProduct c pid with
    | none => rw [hl] at h; exact absurd h (by simp)
    | some p =>
      rw [hl] at h
      simp only [hl]
      rcases hu : update_product_stock c pid (-((qty + qty / 3 : Nat) : Int)) true true
        with ⟨res, c2⟩
      rw [hu] at h
      cases res with
      | ok o n => exact ih h rest
      | err e => exact absurd h (by simp)

theorem purchase_deduct_lookup_none {k : Nat} :
    ∀ (items : List (Nat × Nat)) {c : Catalog},
      lookupProduct c k = none →
      lookupProduct (purchase_deduct c items).2 k = none := by
  intro items
  induction items with
  | nil => intro c h; exact h
  | cons hd tl ih =>
    intro c h
    obtain ⟨pid, qty⟩ := hd
    unfold purchase_deduct
    cases hl : lookupProduct c pid with
    | none => exact h
    | some p =>
      simp only []
      rcases hu : update_product_stock c pid (-((qty + qty / 3 : Nat) : Int)) true true
        with ⟨res, c2⟩
      have hc2 : lookupProduct c2 k = none := by
        have h2 := @update_product_stock_lookup_none c pid k h
          (-((qty + qty / 3 : Nat) : Int)) true true
        rwa [hu] at h2
      cases res with
      | ok o n => exact ih hc2
      | err e => exact hc2

theorem update_admin_wallet_revenue (w : AdminWallet) (amount : Rat) (now : Nat) :
    update_admin_wallet w amount "revenue" now =
      { w with balance := w.balance + amount,
               total_revenue := w.total_revenue + amount,
               total_transactions := w.total_transactions + 1,
               last_updated := now } := by
  unfold update_admin_wallet
  rw [if_pos rfl]

theorem update_admin_wallet_expense (w : AdminWallet) (amount : Rat) (now : Nat) :
    update_admin_wallet w amount "expense" now =
      { w with balance := w.balance - amount,
               total_transactions := w.total_transactions + 1,
               last_updated := now } := by
  unfold update_admin_wallet
  rw [if_neg (by decide), if_pos rfl]

/-- Catalog fixture mirroring two of the default products of
`read_ops.create_default_products`. -/
def demoProduct1 : Product :=
  { id := 1, name := "Vitamin C Serum", brand := "Garnier", stock := 100,
    cost := 1000, price := 2000, is_active := true }

def demoProduct2 : Product :=
  { id := 2, name := "Skin Cleanser", brand := "Cetaphil", stock := 50,
    cost := 280, price := 560, is_active := true }

def demoCatalog : Catalog := [(1, demoProduct1), (2, demoProduct2)]

/-- Store-state fixture: one customer wallet of 10000 (the setup bonus), empty
logs, and the default admin wallet of 50000. -/
def demoState : StoreState :=
  { catalog := demoCatalog, wallet := some 10000, ledger := [], sales := [],
    finTxs := [],
    adminWallet :=
      { balance := 50000, total_revenue := 0, total_transactions := 0,
        last_updated := 0 } }

/-- C1: starting from a catalog whose stocks are all nonnegative, any sequence
of purchase/restock requests leaves every stock nonnegative — every stock
mutation in these flows goes through `update_product_stock`, which refuses any
delta that would make `old_stock + delta` negative — so in particular this
holds after any sequence of individually successful operations. -/
theorem c1_stock_never_negative (s : StoreState) (ops : List StoreOp)
    (h : stocksNonneg s.catalog) :
    stocksNonneg ((ops.foldl applyOp s).catalog) := by
  induction ops generalizing s with
  | nil => exact h
  | cons op tl ih => exact ih (applyOp s op) (stocksNonneg_applyOp h op)

theorem c1_witness :
    stocksNonneg (([StoreOp.purchaseOp 7 [(1, 3)] true 0,
                    StoreOp.restockOp [(2, 10)] 1].foldl applyOp demoState).catalog) :=
  c1_stock_never_negative demoState _ (by decide)

/-- C6: `update_product_stock(product_id, delta)` fails on an unknown product;
fails with an insufficient-stock error leaving the catalog unchanged when
`old_stock + delta < 0`; succeeds with `new_stock = old_stock + delta`
otherwise; and on a persistence failure reports failure with the in-memory
stock rolled back to `old_stock` (a failed forced load also reports failure). -/
theorem c6_update_product_stock_contract (c : Catalog) (pid : Nat) (qc : Int)
    (saveOk : Bool) :
    (update_product_stock c pid qc false saveOk = (.err .loadFailed, c)) ∧
    (lookupProduct c pid = none →
      update_product_stock c pid qc true saveOk = (.err .productNotFound, c)) ∧
    (∀ p, lookupProduct c pid = some p → p.stock + qc < 0 →
      update_product_stock c pid qc true saveOk =
        (.err (.insufficientStock p.stock), c)) ∧
    (∀ p, lookupProduct c pid = some p → 0 ≤ p.stock + qc →
      update_product_stock c pid qc true true =
        (.ok p.stock (p.stock + qc), setStock c pid (p.stock + qc))) ∧
    (∀ p, lookupProduct c pid = some p → 0 ≤ p.stock + qc →
      update_product_stock c pid qc true false = (.err .saveFailed, c)) := by
  refine ⟨rfl, ?_, ?_, ?_, ?_⟩
  · intro h
    simp [update_product_stock, h]
  · intro p hp hneg
    simp [update_product_stock, hp, if_pos hneg]
  · intro p hp hnn
    simp [update_product_stock, hp, if_neg (by omega : ¬ p.stock + qc < 0)]
  · intro p hp hnn
    simp [update_product_stock, hp, if_neg (by omega : ¬ p.stock + qc < 0)]

theorem c6_witness :
    update_product_stock demoCatalog 1 (-200) true true =
      (.err (.insufficientStock demoProduct1.stock), demoCatalog) :=
  (c6_update_product_stock_contract demoCatalog 1 (-200) true).2.2.1
    demoProduct1 (by decide) (by decide)

/-- C7: the loyalty tier is a pure function of points with tier(0) = none,
tier(100) = bronze, tier(500) = silver, tier(1000) = gold,
tier(2000) = diamond, bands 0-99 none, 100-499 bronze, 500-999 silver,
1000-1999 gold, 2000+ diamond, and it is monotone non-decreasing. -/
theorem c7_loyalty_tier_bands :
    get_loyalty_tier 0 = .noTier ∧ get_loyalty_tier 100 = .bronze ∧
    get_loyalty_tier 500 = .silver ∧ get_loyalty_tier 1000 = .gold ∧
    get_loyalty_tier 2000 = .diamond ∧
    (∀ p : Int, 0 ≤ p → p ≤ 99 → get_loyalty_tier p = .noTier) ∧
    (∀ p : Int, 100 ≤ p → p ≤ 499 → get_loyalty_tier p = .bronze) ∧
    (∀ p : Int, 500 ≤ p → p ≤ 999 → get_loyalty_tier p = .silver) ∧
    (∀ p : Int, 1000 ≤ p → p ≤ 1999 → get_loyalty_tier p = .gold) ∧
    (∀ p : Int, 2000 ≤ p → get_loyalty_tier p = .diamond) ∧
    (∀ p q : Int, p ≤ q →
      tierRank (get_loyalty_tier p) ≤ tierRank (get_loyalty_tier q)) := by
  refine ⟨by decide, by decide, by decide, by decide, by decide,
          ?_, ?_, ?_, ?_, ?_, ?_⟩
  · intro p h1 h2
    unfold get_loyalty_tier
    rw [if_neg (by omega), if_neg (by omega), if_neg (by omega), if_neg (by omega)]
  · intro p h1 h2
    unfold get_loyalty_tier
    rw [if_neg (by omega), if_neg (by omega), if_neg (by omega), if_pos (by omega)]
  · intro p h1 h2
    unfold get_loyalty_tier
    rw [if_neg (by omega), if_neg (by omega), if_pos (by omega)]
  · intro p h1 h2
    unfold get_loyalty_tier
    rw [if_neg (by omega), if_pos (by omega)]
  · intro p h1
    unfold get_loyalty_tier
    rw [if_pos (by omega)]
  · intro p q hpq
    unfold get_loyalty_tier
    split_ifs <;> simp [tierRank] <;> omega

theorem c7_witness :
    tierRank (get_loyalty_tier 50) ≤ tierRank (get_loyalty_tier 1500) :=
  c7_loyalty_tier_bands.2.2.2.2.2.2.2.2.2.2 50 1500 (by decide)

/-- C10: an `update_admin_wallet` call with a transaction type that is neither
"revenue" nor "expense" leaves `balance` and `total_revenue` unchanged while
still incrementing `total_transactions` by 1 and rewriting `last_updated`. -/
theorem c10_admin_wallet_frame (w : AdminWallet) (amount : Rat) (ty : String)
    (now : Nat) (h1 : ty ≠ "revenue") (h2 : ty ≠ "expense") :
    (update_admin_wallet w amount ty now).balance = w.balance ∧
    (update_admin_wallet w amount ty now).total_revenue = w.total_revenue ∧
    (update_admin_wallet w amount ty now).total_transactions =
      w.total_transactions + 1 ∧
    (update_admin_wallet w amount ty now).last_updated = now := by
  unfold update_admin_wallet
  rw [if_neg h1, if_neg h2]
  exact ⟨rfl, rfl, rfl, rfl⟩

theorem c10_witness :
    (update_admin_wallet demoState.adminWallet 500 "refund" 7).balance =
      demoState.adminWallet.balance ∧
    (update_admin_wallet demoState.adminWallet 500 "refund" 7).total_revenue =
      demoState.adminWallet.total_revenue ∧
    (update_admin_wallet demoState.adminWallet 500 "refund" 7).total_transactions =
      demoState.adminWallet.total_transactions + 1 ∧
    (update_admin_wallet demoState.adminWallet 500 "refund" 7).last_updated = 7 :=
  c10_admin_wallet_frame demoState.adminWallet 500 "refund" 7
    (by decide) (by decide)

/-- Catalog after deducting 4 units of product 1 (qty 3 plus 1 free). -/
def demoCatalog96 : Catalog :=
  [(1, { demoProduct1 with stock := 96 }), (2, demoProduct2)]

/-- C3: on a passing pre-check, the total equals the sum over the lines of
`cost × 2 × qty` (free units are not charged), every catalog line satisfies
`required = qty + qty // 3 ≤ stock`, and deducting a single such line removes
exactly `required` units of stock. -/
theorem c3_line_pricing (c : Catalog) (items : List (Nat × Nat)) (t : Rat)
    (hc : purchase_check c items = .ok t) :
    t = specPurchaseTotal c items ∧
    (∀ pid qty, (pid, qty) ∈ items → ∀ p, lookupProduct c pid = some p →
      ((specRequired qty : Nat) : Int) ≤ p.stock) ∧
    (∀ pid qty p, lookupProduct c pid = some p →
      ((specRequired qty : Nat) : Int) ≤ p.stock →
      purchase_deduct c [(pid, qty)] =
        (.ok, setStock c pid (p.stock - (specRequired qty : Nat)))) := by
  refine ⟨purchase_check_total hc, purchase_check_avail hc, ?_⟩
  intro pid qty p hp hreq
  have hnlt : ¬ p.stock + -((qty + qty / 3 : Nat) : Int) < 0 := by
    simp only [specRequired, specFree] at hreq
    omega
  simp only [purchase_deduct, hp, update_product_stock, Bool.not_true,
    Bool.false_eq_true, if_false, if_neg hnlt, if_pos rfl, specRequired, specFree]
  rfl

theorem c3_witness :
    (6000 : Rat) = specPurchaseTotal demoCatalog [(1, 3)] ∧
    (∀ pid qty, (pid, qty) ∈ [(1, 3)] → ∀ p,
      lookupProduct demoCatalog pid = some p →
      ((specRequired qty : Nat) : Int) ≤ p.stock) ∧
    (∀ pid qty p, lookupProduct demoCatalog pid = some p →
      ((specRequired qty : Nat) : Int) ≤ p.stock →
      purchase_deduct demoCatalog [(pid, qty)] =
        (.ok, setStock demoCatalog pid (p.stock - (specRequired qty : Nat)))) :=
  c3_line_pricing demoCatalog [(1, 3)] 6000
    (by simp [purchase_check, lookupProduct, demoCatalog, demoProduct1]; norm_num)

/-- C4: if any line of a catalog product requires more units than its current
stock, the purchase is rejected by the pre-check and the whole state — in
particular the stock of every line — is returned unchanged. -/
theorem c4_insufficient_line_rejects_all (s : StoreState) (cid : Nat)
    (items : List (Nat × Nat)) (invoiceOk : Bool) (now : Nat)
    (pid qty : Nat) (p : Product)
    (hmem : (pid, qty) ∈ items) (hp : lookupProduct s.catalog pid = some p)
    (hins : p.stock < ((specRequired qty : Nat) : Int)) :
    ∃ e, purchase s cid items invoiceOk now = (.insufficientStock e, s) := by
  obtain ⟨e, he⟩ := purchase_check_insufficient hmem hp hins
  exact ⟨e, by simp [purchase, he]⟩

theorem c4_witness :
    ∃ e, purchase demoState 7 [(1, 3), (2, 100)] true 0 =
      (.insufficientStock e, demoState) :=
  c4_insufficient_line_rejects_all demoState 7 [(1, 3), (2, 100)] true 0 2 100
    demoProduct2 (by decide) (by decide) (by decide)

/-- C5: a successful restock batch debits the admin wallet by exactly the sum
of `quantity × cost` over the lines, increments `total_transactions` by
exactly 1 regardless of the number of lines, and leaves `total_revenue`
unchanged. -/
theorem c5_restock_settlement (s : StoreState) (items : List (Nat × Nat))
    (now : Nat) (t : Rat) (c1 : Catalog)
    (hc : restock_cost s.catalog items = .ok t)
    (hb : ¬ t > s.adminWallet.balance)
    (ha : restock_apply s.catalog items = (none, c1)) :
    (admin_restock s items now).1 = .completed ∧
    (admin_restock s items now).2.adminWallet.balance =
      s.adminWallet.balance - specRestockTotal s.catalog items ∧
    (admin_restock s items now).2.adminWallet.total_transactions =
      s.adminWallet.total_transactions + 1 ∧
    (admin_restock s items now).2.adminWallet.total_revenue =
      s.adminWallet.total_revenue := by
  have ht := restock_cost_total hc
  have hres : admin_restock s items now =
      (.completed,
       { s with
           catalog := c1,
           adminWallet := deduct_admin_balance s.adminWallet t now }) := by
    simp [admin_restock, hc, hb, ha]
  rw [hres]
  simp [deduct_admin_balance, update_admin_wallet_expense, ht]

theorem c5_witness :
    (admin_restock demoState [(1, 5), (2, 10)] 3).1 = .completed ∧
    (admin_restock demoState [(1, 5), (2, 10)] 3).2.adminWallet.balance =
      demoState.adminWallet.balance -
        specRestockTotal demoState.catalog [(1, 5), (2, 10)] ∧
    (admin_restock demoState [(1, 5), (2, 10)] 3).2.adminWallet.total_transactions =
      demoState.adminWallet.total_transactions + 1 ∧
    (admin_restock demoState [(1, 5), (2, 10)] 3).2.adminWallet.total_revenue =
      demoState.adminWallet.total_revenue :=
  c5_restock_settlement demoState [(1, 5), (2, 10)] 3 7800
    [(1, { demoProduct1 with stock := 105 }), (2, { demoProduct2 with stock := 60 })]
    (by simp [restock_cost, lookupProduct, demoState, demoCatalog, demoProduct1,
          demoProduct2]
        norm_num)
    (by decide) (by decide)

/-- C9: in the purchase flow all stock deductions are persisted before the
receipt is written; if the receipt write fails the purchase aborts with stock
deducted for every line but the wallet undebited and no ledger entry, no sale
record, no global transaction record, and no admin-wallet credit. -/
theorem c9_invoice_failure_state (s : StoreState) (cid : Nat)
    (items : List (Nat × Nat)) (now : Nat) (t : Rat) (c1 : Catalog)
    (hc : purchase_check s.catalog items = .ok t)
    (hb : ¬ t > s.wallet.getD 0)
    (hd : purchase_deduct s.catalog items = (.ok, c1)) :
    purchase s cid items false now = (.invoiceError, { s with catalog := c1 }) ∧
    (purchase s cid items false now).2.catalog = c1 ∧
    (purchase s cid items false now).2.wallet = s.wallet ∧
    (purchase s cid items false now).2.ledger = s.ledger ∧
    (purchase s cid items false now).2.sales = s.sales ∧
    (purchase s cid items false now).2.finTxs = s.finTxs ∧
    (purchase s cid items false now).2.adminWallet = s.adminWallet := by
  have h1 : purchase s cid items false now =
      (.invoiceError, { s with catalog := c1 }) := by
    simp [purchase, hc, hb, hd]
  exact ⟨h1, by rw [h1], by rw [h1], by rw [h1], by rw [h1], by rw [h1], by rw [h1]⟩

theorem c9_witness :
    purchase demoState 7 [(1, 3)] false 0 =
      (.invoiceError, { demoState with catalog := demoCatalog96 }) ∧
    (purchase demoState 7 [(1, 3)] false 0).2.catalog = demoCatalog96 ∧
    (purchase demoState 7 [(1, 3)] false 0).2.wallet = demoState.wallet ∧
    (purchase demoState 7 [(1, 3)] false 0).2.ledger = demoState.ledger ∧
    (purchase demoState 7 [(1, 3)] false 0).2.sales = demoState.sales ∧
    (purchase demoState 7 [(1, 3)] false 0).2.finTxs = demoState.finTxs ∧
    (purchase demoState 7 [(1, 3)] false 0).2.adminWallet = demoState.adminWallet :=
  c9_invoice_failure_state demoState 7 [(1, 3)] 0 6000 demoCatalog96
    (by simp [purchase_check, lookupProduct, demoState, demoCatalog, demoProduct1]
        norm_num)
    (by decide) (by decide)

theorem purchase_completed_parts (s : StoreState) (cid : Nat)
    (items : List (Nat × Nat)) (now : Nat) (bal t : Rat) (c1 : Catalog)
    (hw : s.wallet = some bal)
    (hc : purchase_check s.catalog items = .ok t)
    (hb : ¬ t > bal)
    (hd : purchase_deduct s.catalog items = (.ok, c1)) :
    (purchase s cid items true now).1 = .completed ∧
    (purchase s cid items true now).2.wallet = some (bal + -t) ∧
    (purchase s cid items true now).2.ledger =
      s.ledger ++
        [{ id := s.ledger.length + 1,
           ttype := if -t > 0 then "add" else "withdraw",
           amount := |(-t)|,
           description := if -t > 0 then "Money added to wallet"
                          else "Money withdrawn from wallet",
           balance_after := bal + -t },
         { id := s.ledger.length + 1 + 1,
           ttype := "purchase", amount := t, description := "Purchase items",
           balance_after := bal + -t }] := by
  refine ⟨?_, ?_, ?_⟩ <;>
    simp [purchase, hc, hw, hb, hd, update_wallet_balance, log_customer_transaction]

/-- C2 counterexample: a concrete completed purchase (6000 debited from a
wallet of 10000) appends TWO ledger entries for the single balance change, so
the claim that it adds exactly one ledger entry is false. -/
theorem c2_counterexample :
    (purchase demoState 7 [(1, 3)] true 0).1 = .completed ∧
    demoState.ledger.length = 0 ∧
    (purchase demoState 7 [(1, 3)] true 0).2.ledger.length = 2 ∧
    ¬ ((purchase demoState 7 [(1, 3)] true 0).2.ledger.length =
        demoState.ledger.length + 1) := by
  obtain ⟨h1, h2, h3⟩ := purchase_completed_parts demoState 7 [(1, 3)] 0
    10000 6000 demoCatalog96 rfl
    (by simp [purchase_check, lookupProduct, demoState, demoCatalog, demoProduct1]
        norm_num)
    (by norm_num) (by decide)
  refine ⟨h1, rfl, ?_, ?_⟩
  · rw [h3]; rfl
  · rw [h3]; decide

/-- C2 (amended): `update_wallet_balance` appends exactly one ledger entry
whose `balance_after` equals the returned balance; a completed purchase,
however, adds exactly TWO ledger entries for its single wallet debit — the
"withdraw" entry written inside `update_wallet_balance` and a second
"purchase" entry logged by the purchase handler — both carrying
`balance_after` equal to the post-debit wallet balance. -/
theorem c2_purchase_ledger_amended (s : StoreState) (cid : Nat)
    (items : List (Nat × Nat)) (now : Nat) (bal t : Rat) (c1 : Catalog)
    (hw : s.wallet = some bal) (ht0 : 0 ≤ t)
    (hc : purchase_check s.catalog items = .ok t)
    (hb : ¬ t > bal)
    (hd : purchase_deduct s.catalog items = (.ok, c1)) :
    (∀ (b : Rat) (ledger : List LedgerEntry) (a : Rat), ∃ e : LedgerEntry,
      update_wallet_balance (some b) ledger a = (some (b + a), ledger ++ [e]) ∧
      e.balance_after = b + a) ∧
    ∃ e1 e2 : LedgerEntry,
      (purchase s cid items true now).1 = .completed ∧
      (purchase s cid items true now).2.ledger = s.ledger ++ [e1, e2] ∧
      (purchase s cid items true now).2.wallet = some (bal - t) ∧
      e1.ttype = "withdraw" ∧ e2.ttype = "purchase" ∧
      e1.balance_after = bal - t ∧ e2.balance_after = bal - t := by
  constructor
  · intro b ledger a
    exact ⟨_, rfl, rfl⟩
  · obtain ⟨h1, h2, h3⟩ := purchase_completed_parts s cid items now bal t c1 hw hc hb hd
    have hnp : ¬ (-t > 0) := fun h => absurd (neg_pos.mp h) (not_lt.mpr ht0)
    have hsub : bal + -t = bal - t := (sub_eq_add_neg bal t).symm
    simp only [if_neg hnp] at h3
    refine ⟨_, _, h1, h3, ?_, rfl, rfl, hsub, hsub⟩
    rw [h2, hsub]

theorem c2_witness :
    (∀ (b : Rat) (ledger : List LedgerEntry) (a : Rat), ∃ e : LedgerEntry,
      update_wallet_balance (some b) ledger a = (some (b + a), ledger ++ [e]) ∧
      e.balance_after = b + a) ∧
    ∃ e1 e2 : LedgerEntry,
      (purchase demoState 7 [(1, 3)] true 0).1 = .completed ∧
      (purchase demoState 7 [(1, 3)] true 0).2.ledger =
        demoState.ledger ++ [e1, e2] ∧
      (purchase demoState 7 [(1, 3)] true 0).2.wallet =
        some ((10000 : Rat) - 6000) ∧
      e1.ttype = "withdraw" ∧ e2.ttype = "purchase" ∧
      e1.balance_after = (10000 : Rat) - 6000 ∧
      e2.balance_after = (10000 : Rat) - 6000 :=
  c2_purchase_ledger_amended demoState 7 [(1, 3)] 0 10000 6000 demoCatalog96
    rfl (by norm_num)
    (by simp [purchase_check, lookupProduct, demoState, demoCatalog, demoProduct1]
        norm_num)
    (by norm_num) (by decide)

/-- C8: a purchase containing a line with an unknown product id and valid
earlier lines passes the pre-check (the unknown line is skipped and
contributes zero to the total) but the deduction loop reads it unguarded, so
the purchase aborts at that line after the deductions of all preceding lines
have been applied and persisted, with no rollback of those deductions. -/
theorem c8_unknown_line_partial_deduction (s : StoreState) (cid : Nat)
    (pre rest : List (Nat × Nat)) (bad q : Nat) (invoiceOk : Bool) (now : Nat)
    (t : Rat) (c1 : Catalog)
    (hbad : lookupProduct s.catalog bad = none)
    (hc : purchase_check s.catalog (pre ++ (bad, q) :: rest) = .ok t)
    (hb : ¬ t > s.wallet.getD 0)
    (hd : purchase_deduct s.catalog pre = (.ok, c1)) :
    purchase s cid (pre ++ (bad, q) :: rest) invoiceOk now =
      (.unhandledKeyError bad, { s with catalog := c1 }) ∧
    purchase_check s.catalog (pre ++ (bad, q) :: rest) =
      purchase_check s.catalog (pre ++ rest) := by
  have hskip := purchase_check_skip hbad q pre rest
  have hc1bad : lookupProduct c1 bad = none := by
    have h2 := purchase_deduct_lookup_none pre hbad
    rwa [hd] at h2
  have hdall : purchase_deduct s.catalog (pre ++ (bad, q) :: rest) =
      (.keyError bad, c1) := by
    rw [purchase_deduct_append pre hd]
    simp [purchase_deduct, hc1bad]
  refine ⟨?_, hskip⟩
  simp [purchase, hc, hb, hdall]

theorem c8_witness :
    purchase demoState 7 ([(1, 3)] ++ (9, 2) :: []) true 0 =
      (.unhandledKeyError 9, { demoState with catalog := demoCatalog96 }) ∧
    purchase_check demoState.catalog ([(1, 3)] ++ (9, 2) :: []) =
      purchase_check demoState.catalog ([(1, 3)] ++ []) :=
  c8_unknown_line_partial_deduction demoState 7 [(1, 3)] [] 9 2 true 0 6000
    demoCatalog96 (by decide)
    (by simp [purchase_check, lookupProduct, demoState, demoCatalog, demoProduct1]
        norm_num)
    (by decide) (by decide)
